import Mathlib

/-!
Shallow embedding of the resilient persistence layer of the
`large_stock_options_monitor` repository:

* `src/utils/mysql_handler.py`   — the self-healing MySQL connection handle;
* `src/utils/db_health_checker.py` — the database health checker;
* `src/utils/data_handler.py`    — the dual-sink data handler and the
  statistics aggregator.

Network effects (opening a connection, pinging it, executing a statement)
are modelled by an environment `NetEnv` of oracles that decide the outcome
of each kind of network call made during one operation, and every stateful
operation additionally returns the ordered list of network operations it
performed, so that "performs zero network calls" claims become statements
about that trace.  The `DATA_CONFIG` flags (`save_to_csv`, `save_to_db`),
which live in the repository's `config.py`, are passed in as an explicit
`DataConfig` record, since the claims quantify over all configurations.
-/

/-- One network operation performed by the connection handle. -/
inductive NetOp
  | connectOp
  | pingOp
  | queryOp
  | execOp
  | closeOp
  deriving DecidableEq, Repr

/-- Oracles deciding the outcome of the network calls an operation makes:
`now` is the value of `time.time()` / `datetime.now()` during the call,
`connectOk` whether `pymysql.connect` succeeds, `pingOk` whether
`Connection.ping(reconnect=True)` succeeds, `queryOk` / `execOk` whether a
cursor execution of a query / write statement succeeds. -/
structure NetEnv where
  now : Nat
  connectOk : Bool
  pingOk : Bool
  queryOk : Bool
  execOk : Bool
  deriving DecidableEq, Repr

/-- State of `MySQLHandler` (`src/utils/mysql_handler.py`, lines 20-28).
`connection` models the Python attribute `self.connection`: `none` when the
attribute is `None`, `some b` when it holds a pymysql connection object
whose `.open` flag is `b`.  `last_ping_time` is `self.last_ping_time`
(initially `0`).  The lock and the static configuration carry no
claim-relevant state. -/
structure MySQLHandler where
  connection : Option Bool
  last_ping_time : Nat
  deriving DecidableEq, Repr

/-- A fresh handler, as built by `MySQLHandler.__init__`. -/
def MySQLHandler.mk0 : MySQLHandler :=
  { connection := none, last_ping_time := 0 }

/-- `self.ping_interval = 300` (line 25). -/
def ping_interval : Nat := 300

/-- The Python test `self.connection and self.connection.open`. -/
def MySQLHandler.isOpen (h : MySQLHandler) : Bool :=
  match h.connection with
  | some b => b
  | none => false

/-- `MySQLHandler.connect` (lines 54-83).  If the connection is already
open it returns `True` at once without touching any state; otherwise it
attempts `pymysql.connect`: on success it stores the new open connection
and records `last_ping_time = time.time()`; on any exception it sets
`self.connection = None` and returns `False` (leaving `last_ping_time`
untouched). -/
def MySQLHandler.connect (env : NetEnv) (h : MySQLHandler) :
    MySQLHandler × Bool × List NetOp :=
  if h.isOpen then (h, true, [])
  else if env.connectOk then
    ({ connection := some true, last_ping_time := env.now }, true, [NetOp.connectOp])
  else
    ({ h with connection := none }, false, [NetOp.connectOp])

/-- `MySQLHandler.disconnect` (lines 85-94): closes the connection object
if the attribute is set (even a closed object is truthy), a no-op
otherwise. -/
def MySQLHandler.disconnect (h : MySQLHandler) : MySQLHandler × List NetOp :=
  match h.connection with
  | some _ => ({ h with connection := none }, [NetOp.closeOp])
  | none => (h, [])

/-- `MySQLHandler._ensure_connection` (lines 96-114).  If more than
`ping_interval` seconds have passed since `last_ping_time` and the
connection is open, it pings it (`reconnect=True`); a successful ping
refreshes `last_ping_time`, a failed ping leaves the connection closed
(pymysql closes the socket when its internal reconnect fails) and the
method returns `self.connect()`.  After the ping step, if the connection
is missing or closed the method returns `self.connect()`, else `True`. -/
def MySQLHandler.ensure_connection (env : NetEnv) (h : MySQLHandler) :
    MySQLHandler × Bool × List NetOp :=
  if env.now - h.last_ping_time > ping_interval then
    if h.isOpen then
      if env.pingOk then
        ({ h with last_ping_time := env.now }, true, [NetOp.pingOp])
      else
        let r := MySQLHandler.connect env { h with connection := some false }
        (r.1, r.2.1, NetOp.pingOp :: r.2.2)
    else
      MySQLHandler.connect env h
  else
    if h.isOpen then (h, true, [])
    else MySQLHandler.connect env h

/-- `MySQLHandler.execute_query` (lines 116-129) specialised to the health
probe statement `SELECT 1 as health_check`: when the connection can be
ensured and the cursor execution succeeds, the server answers with exactly
one row; on an ensure failure or an execution error the method returns
`None`. -/
def MySQLHandler.execute_query_select1 (env : NetEnv) (h : MySQLHandler) :
    MySQLHandler × Option (List Nat) × List NetOp :=
  let r := MySQLHandler.ensure_connection env h
  if r.2.1 then
    if env.queryOk then (r.1, some [1], r.2.2 ++ [NetOp.queryOp])
    else (r.1, none, r.2.2 ++ [NetOp.queryOp])
  else (r.1, none, r.2.2)

/-- `MySQLHandler.execute_insert` (lines 131-150): ensures the connection
(returning `False` when that fails), then executes the statement through a
cursor, returning `True` on success and `False` on any exception (the
commit/rollback bookkeeping for non-autocommit configurations is part of
the same success/failure outcome). -/
def MySQLHandler.execute_insert (env : NetEnv) (h : MySQLHandler) :
    MySQLHandler × Bool × List NetOp :=
  let r := MySQLHandler.ensure_connection env h
  if r.2.1 then
    if env.execOk then (r.1, true, r.2.2 ++ [NetOp.execOp])
    else (r.1, false, r.2.2 ++ [NetOp.execOp])
  else (r.1, false, r.2.2)

/-- `MySQLHandler.execute_batch_insert` (lines 152-175): first ensures the
connection (returning `False` when that fails), then returns `True`
immediately for an empty parameter list, and otherwise runs
`cursor.executemany`, returning its success/failure outcome. -/
def MySQLHandler.execute_batch_insert {α : Type} (env : NetEnv)
    (h : MySQLHandler) (params_list : List α) :
    MySQLHandler × Bool × List NetOp :=
  let r := MySQLHandler.ensure_connection env h
  if r.2.1 then
    if params_list.isEmpty then (r.1, true, r.2.2)
    else if env.execOk then (r.1, true, r.2.2 ++ [NetOp.execOp])
    else (r.1, false, r.2.2 ++ [NetOp.execOp])
  else (r.1, false, r.2.2)

/-- `MySQLHandler.health_check` (lines 377-384): runs the probe query and
returns whether the result is non-`None` and non-empty; every exception is
caught and turned into `False`. -/
def MySQLHandler.health_check (env : NetEnv) (h : MySQLHandler) :
    MySQLHandler × Bool × List NetOp :=
  let r := MySQLHandler.execute_query_select1 env h
  match r.2.1 with
  | some rows => (r.1, !rows.isEmpty, r.2.2)
  | none => (r.1, false, r.2.2)

/-- One persisted trade event.  The Python code treats the record as an
open field bag; only the fields the statistics aggregator reads are
modelled, the remaining payload is opaque to the core. -/
structure TradeRecord where
  stock_code : String
  option_code : String
  volume : Int
  turnover : Int
  timestamp : Nat
  deriving DecidableEq, Repr

/-- `MySQLHandler.save_option_trade` (lines 177-227): builds the INSERT
statement parameters from the record (defaulting missing keys, a step with
no observable effect on the handle) and delegates to `execute_insert`. -/
def MySQLHandler.save_option_trade (env : NetEnv) (h : MySQLHandler)
    (_rec : TradeRecord) : MySQLHandler × Bool × List NetOp :=
  MySQLHandler.execute_insert env h

/-- Result of `MySQLHandler.get_connection_info` (lines 386-395), the part
read back by the health checker. -/
structure ConnectionInfo where
  connected : Bool
  last_ping : Option Nat
  deriving DecidableEq, Repr

/-- `MySQLHandler.get_connection_info` (lines 386-395). -/
def MySQLHandler.get_connection_info (h : MySQLHandler) : ConnectionInfo :=
  { connected := h.isOpen,
    last_ping := if h.last_ping_time > 0 then some h.last_ping_time else none }

/-- State of `DatabaseHealthChecker` (`src/utils/db_health_checker.py`,
lines 18-36).  `mysql_handler` is `None` when persistence is disabled or
`_initialize_mysql_handler` failed.  The logger, the thread machinery and
the fixed `check_interval` carry no claim-relevant state. -/
structure DatabaseHealthChecker where
  mysql_handler : Option MySQLHandler
  last_check_time : Option Nat
  is_healthy : Bool
  check_count : Nat
  success_count : Nat
  failure_count : Nat
  last_failure_time : Option Nat
  last_failure_reason : Option String
  deriving DecidableEq, Repr

/-- `DatabaseHealthChecker.__init__` (lines 18-36): all counters zero,
not healthy, no timestamps; the handler is `some MySQLHandler.mk0` when
`save_to_db` is set and construction succeeds, `none` otherwise. -/
def DatabaseHealthChecker.mk0 (handler : Option MySQLHandler) :
    DatabaseHealthChecker :=
  { mysql_handler := handler, last_check_time := none, is_healthy := false,
    check_count := 0, success_count := 0, failure_count := 0,
    last_failure_time := none, last_failure_reason := none }

/-- `DatabaseHealthChecker.check_health` (lines 47-79).  With no handler it
returns `False` without touching any field.  Otherwise it increments
`check_count`, stamps `last_check_time`, and runs the handler's
`health_check`: on `True` it increments `success_count` and sets
`is_healthy`; on `False` it increments `failure_count`, clears
`is_healthy` and records the failure time and the reason
"Health check query failed".  (`health_check` catches its own exceptions,
so the `except` branch of `check_health`, which would record `str(e)`
instead, is unreachable through it.) -/
def DatabaseHealthChecker.check_health (env : NetEnv)
    (hc : DatabaseHealthChecker) : DatabaseHealthChecker × Bool × List NetOp :=
  match hc.mysql_handler with
  | none => (hc, false, [])
  | some h =>
    let r := MySQLHandler.health_check env h
    if r.2.1 then
      ({ hc with mysql_handler := some r.1,
                 check_count := hc.check_count + 1,
                 last_check_time := some env.now,
                 success_count := hc.success_count + 1,
                 is_healthy := true }, true, r.2.2)
    else
      ({ hc with mysql_handler := some r.1,
                 check_count := hc.check_count + 1,
                 last_check_time := some env.now,
                 failure_count := hc.failure_count + 1,
                 is_healthy := false,
                 last_failure_time := some env.now,
                 last_failure_reason := some "Health check query failed" },
       false, r.2.2)

/-- Snapshot returned by `DatabaseHealthChecker.get_health_status`
(lines 128-153); the `success_rate` is computed with Python's true
division, modelled over the rationals. -/
structure HealthStatus where
  is_healthy : Bool
  last_check_time : Option Nat
  check_count : Nat
  success_count : Nat
  failure_count : Nat
  success_rate : Rat
  last_failure_time : Option Nat
  last_failure_reason : Option String
  connection_info : Option ConnectionInfo
  deriving DecidableEq, Repr

/-- `DatabaseHealthChecker.get_health_status` (lines 128-153). -/
def DatabaseHealthChecker.get_health_status (hc : DatabaseHealthChecker) :
    HealthStatus :=
  { is_healthy := hc.is_healthy,
    last_check_time := hc.last_check_time,
    check_count := hc.check_count,
    success_count := hc.success_count,
    failure_count := hc.failure_count,
    success_rate :=
      if hc.check_count > 0 then
        (hc.success_count : Rat) / (hc.check_count : Rat) * 100
      else 0,
    last_failure_time := hc.last_failure_time,
    last_failure_reason := hc.last_failure_reason,
    connection_info := hc.mysql_handler.map MySQLHandler.get_connection_info }

/-- `DatabaseHealthChecker.force_reconnect` (lines 155-177).  With no
handler it returns `False`.  Otherwise it disconnects (a no-op on a handle
with no connection object), reconnects, and — only when the reconnect
succeeded — runs one immediate `check_health`; it returns the reconnect
outcome. -/
def DatabaseHealthChecker.force_reconnect (env : NetEnv)
    (hc : DatabaseHealthChecker) : DatabaseHealthChecker × Bool × List NetOp :=
  match hc.mysql_handler with
  | none => (hc, false, [])
  | some h =>
    let d := MySQLHandler.disconnect h
    let c := MySQLHandler.connect env d.1
    if c.2.1 then
      let hc1 := { hc with mysql_handler := some c.1 }
      let k := DatabaseHealthChecker.check_health env hc1
      (k.1, true, d.2 ++ c.2.2 ++ k.2.2)
    else
      ({ hc with mysql_handler := some c.1 }, false, d.2 ++ c.2.2)

/-- One iteration of `DatabaseHealthChecker._monitoring_loop`
(lines 107-126), without the inter-check wait: run `check_health`, and if
the checker is now unhealthy and a handler exists, attempt one reconnect
(best-effort; its outcome is only logged). -/
def DatabaseHealthChecker.monitoring_iteration (env : NetEnv)
    (hc : DatabaseHealthChecker) : DatabaseHealthChecker :=
  let hc1 := (DatabaseHealthChecker.check_health env hc).1
  if !hc1.is_healthy then
    match hc1.mysql_handler with
    | some h =>
      { hc1 with mysql_handler := some (MySQLHandler.connect env h).1 }
    | none => hc1
  else hc1

/-- `DatabaseHealthChecker.reset_statistics` (lines 202-209). -/
def DatabaseHealthChecker.reset_statistics (hc : DatabaseHealthChecker) :
    DatabaseHealthChecker :=
  { hc with check_count := 0, success_count := 0, failure_count := 0,
            last_failure_time := none, last_failure_reason := none }

/-- The `DATA_CONFIG` sink switches (repository `config.py`), passed to the
data handler explicitly. -/
structure DataConfig where
  save_to_csv : Bool
  save_to_db : Bool
  deriving DecidableEq, Repr

/-- State of `DataHandler` (`src/utils/data_handler.py`, lines 14-33):
the optional MySQL handler and the CSV file contents (`none` when the file
does not exist yet; the header row is implicit in file creation). -/
structure DataHandler where
  mysql_handler : Option MySQLHandler
  csv_file : Option (List TradeRecord)
  deriving DecidableEq, Repr

/-- `DataHandler._save_to_csv` (lines 50-67): appends the record to the
file, creating it (with a header) when absent; every I/O exception —
modelled by `csvOk = false` — is caught and logged, and the method returns
`None` in all cases. -/
def DataHandler.csv_save (csvOk : Bool) (dh : DataHandler)
    (rec : TradeRecord) : DataHandler :=
  if csvOk then
    match dh.csv_file with
    | some rows => { dh with csv_file := some (rows ++ [rec]) }
    | none => { dh with csv_file := some [rec] }
  else dh

/-- `DataHandler._save_to_database` (lines 69-87): returns `False` when the
MySQL handler was never initialized, otherwise the outcome of
`save_option_trade` (exceptions are caught and turned into `False`). -/
def DataHandler.db_save (env : NetEnv) (dh : DataHandler)
    (rec : TradeRecord) : DataHandler × Bool :=
  match dh.mysql_handler with
  | none => (dh, false)
  | some h =>
    let r := MySQLHandler.save_option_trade env h rec
    ({ dh with mysql_handler := some r.1 }, r.2.1)

/-- `DataHandler.save_trade` (lines 42-48): runs the CSV sink when
`save_to_csv` is set and the database sink when `save_to_db` is set,
discarding both outcomes; the Python method has no `return` statement, so
it returns `None` — modelled as `none : Option Bool`. -/
def DataHandler.save_trade (cfg : DataConfig) (env : NetEnv) (csvOk : Bool)
    (dh : DataHandler) (rec : TradeRecord) : DataHandler × Option Bool :=
  let dh1 := if cfg.save_to_csv then DataHandler.csv_save csvOk dh rec else dh
  let dh2 := if cfg.save_to_db then (DataHandler.db_save env dh1 rec).1 else dh1
  (dh2, none)

/-- The statistics mapping built by `DataHandler.get_statistics`
(lines 126-148): `total_trades` is always present; the remaining keys are
present only for a non-empty result set. -/
structure TradeStats where
  total_trades : Nat
  unique_stocks : Option Nat
  unique_options : Option Nat
  total_volume : Option Int
  total_turnover : Option Int
  avg_trade_size : Option Rat
  latest_trade_time : Option Nat
  deriving DecidableEq, Repr

/-- Return shape of `DataHandler.get_statistics`: a statistics mapping, or
the `{'error': ...}` mapping produced by its `except` branch. -/
inductive StatsResult
  | stats (s : TradeStats)
  | failed (msg : String)
  deriving DecidableEq, Repr

/-- `DataHandler.get_statistics` (lines 126-148), parameterised by the
result set that `load_historical_data` returned.  An empty set yields
`{'total_trades': 0}`; a non-empty set yields the counts, distinct counts,
sums, mean and maximum timestamp computed over it.  The body of the model
is total, so the `except` branch (`StatsResult.failed`) is never taken; it
is kept to mirror the Python return shape. -/
def DataHandler.get_statistics (df : List TradeRecord) : StatsResult :=
  if df.isEmpty then
    StatsResult.stats
      { total_trades := 0, unique_stocks := none, unique_options := none,
        total_volume := none, total_turnover := none,
        avg_trade_size := none, latest_trade_time := none }
  else
    StatsResult.stats
      { total_trades := df.length,
        unique_stocks := some (df.map (fun r => r.stock_code)).dedup.length,
        unique_options := some (df.map (fun r => r.option_code)).dedup.length,
        total_volume := some ((df.map (fun r => r.volume)).sum),
        total_turnover := some ((df.map (fun r => r.turnover)).sum),
        avg_trade_size :=
          some (((df.map (fun r => r.volume)).sum : Rat) / (df.length : Rat)),
        latest_trade_time :=
          some ((df.map (fun r => r.timestamp)).foldl max 0) }

/-- A handler whose connection is open and freshly verified, used to run
health-check histories in which the probe outcome is the only varying
input. -/
def hOpen0 : MySQLHandler := { connection := some true, last_ping_time := 0 }

/-- An environment in which the connection is left alone and the probe
query outcome is `b` (`now = 0` keeps the handle inside its ping
interval). -/
def envOf (b : Bool) : NetEnv :=
  { now := 0, connectOk := true, pingOk := true, queryOk := b, execOk := true }

/-- Run a sequence of `check_health` calls whose probe outcomes are given
by `outcomes`. -/
def run_health_checks (outcomes : List Bool) (hc : DatabaseHealthChecker) :
    DatabaseHealthChecker :=
  outcomes.foldl (fun s b => (DatabaseHealthChecker.check_health (envOf b) s).1) hc

/-- The counter invariant of the health checker: every check is counted as
exactly one success or one failure. -/
def counters_consistent (hc : DatabaseHealthChecker) : Prop :=
  hc.check_count = hc.success_count + hc.failure_count

/-- A sample trade record. -/
def trec0 : TradeRecord :=
  { stock_code := "HK.00700", option_code := "TCH240101C700", volume := 100,
    turnover := 5000, timestamp := 1 }

/-- An environment in which the database server is unreachable: every kind
of network call fails. -/
def envDown : NetEnv :=
  { now := 0, connectOk := false, pingOk := false, queryOk := false,
    execOk := false }

/-- A monitor whose handler exists but has never connected. -/
def hcNoConn : DatabaseHealthChecker :=
  DatabaseHealthChecker.mk0 (some MySQLHandler.mk0)

/-- A handle that was verified alive at time 100 but whose connection
object has since been closed. -/
def hStale : MySQLHandler := { connection := some false, last_ping_time := 100 }

/-- A healthy environment observed after the ping interval has elapsed for
`hStale`. -/
def envLate : NetEnv :=
  { now := 401, connectOk := true, pingOk := true, queryOk := true,
    execOk := true }

/-- A handle not holding an open connection reports `isOpen = false`. -/
theorem isOpen_eq_false (h : MySQLHandler) (hne : h.connection ≠ some true) :
    h.isOpen = false := by
  unfold MySQLHandler.isOpen
  cases e : h.connection with
  | none => rfl
  | some b =>
    cases b with
    | false => rfl
    | true => exact absurd e hne

/-- Claim C7: `connect()` is idempotent — on an already-open connection it
returns `True` immediately, performing no network call and changing no
internal state (same connection, same last-verified-alive timestamp); on a
connection error it returns `False` and leaves the handle closed
(`connection` reset to `None`). -/
theorem C7_connect_idempotent (env : NetEnv) (h : MySQLHandler) :
    (h.connection = some true → MySQLHandler.connect env h = (h, true, [])) ∧
    (h.connection ≠ some true → env.connectOk = false →
      MySQLHandler.connect env h =
        ({ h with connection := none }, false, [NetOp.connectOp])) := by
  constructor
  · intro hopen
    simp [MySQLHandler.connect, MySQLHandler.isOpen, hopen]
  · intro hne hko
    simp [MySQLHandler.connect, isOpen_eq_false h hne, hko]

/-- Witness for C7 at concrete inputs: an open fresh handle, and a fresh
never-connected handle against an unreachable server. -/
theorem C7_connect_idempotent_witness :
    MySQLHandler.connect (envOf true) hOpen0 = (hOpen0, true, []) ∧
    MySQLHandler.connect envDown MySQLHandler.mk0 =
      ({ MySQLHandler.mk0 with connection := none }, false, [NetOp.connectOp]) :=
  ⟨(C7_connect_idempotent (envOf true) hOpen0).1 rfl,
   (C7_connect_idempotent envDown MySQLHandler.mk0).2 (by decide) rfl⟩

/-- Claim C8: `get_statistics()` on an empty loaded result set returns the
zero-activity mapping `{'total_trades': 0}` rather than an error mapping,
and (the model being total, mirroring the catch-all `except`) raises
nothing to the caller. -/
theorem C8_get_statistics_empty :
    DataHandler.get_statistics [] =
      StatsResult.stats
        { total_trades := 0, unique_stocks := none, unique_options := none,
          total_volume := none, total_turnover := none,
          avg_trade_size := none, latest_trade_time := none } := rfl

/-- Claim C10: `check_health` on a monitor whose store handle was never
initialized returns `False` and leaves the whole checker state — all
counters, flags and timestamps — unchanged, performing no network call. -/
theorem C10_check_health_uninitialized (env : NetEnv)
    (hc : DatabaseHealthChecker) (hnone : hc.mysql_handler = none) :
    DatabaseHealthChecker.check_health env hc = (hc, false, []) := by
  simp [DatabaseHealthChecker.check_health, hnone]

/-- Witness for C10: a checker built with persistence disabled. -/
theorem C10_check_health_uninitialized_witness :
    DatabaseHealthChecker.check_health (envOf true)
        (DatabaseHealthChecker.mk0 none) =
      (DatabaseHealthChecker.mk0 none, false, []) :=
  C10_check_health_uninitialized (envOf true) (DatabaseHealthChecker.mk0 none) rfl

/-- Claim C4: on an initialized monitor every `check_health` call increments
`check_count` by exactly one together with exactly one of `success_count`
(probe success, which also sets `is_healthy`) or `failure_count` (any
failure, which clears `is_healthy` and records the failure time and
reason); in particular ten calls whose probe outcomes alternate
success/failure, run from a fresh connected monitor, yield five successes,
five failures, and the reason recorded by the tenth (failing) call. -/
theorem C4_check_health_counts :
    (∀ (env : NetEnv) (hc : DatabaseHealthChecker) (h : MySQLHandler),
      hc.mysql_handler = some h →
        (DatabaseHealthChecker.check_health env hc).1.check_count =
            hc.check_count + 1 ∧
          (((DatabaseHealthChecker.check_health env hc).1.success_count =
                hc.success_count + 1 ∧
              (DatabaseHealthChecker.check_health env hc).1.failure_count =
                hc.failure_count ∧
              (DatabaseHealthChecker.check_health env hc).1.is_healthy = true) ∨
            ((DatabaseHealthChecker.check_health env hc).1.failure_count =
                hc.failure_count + 1 ∧
              (DatabaseHealthChecker.check_health env hc).1.success_count =
                hc.success_count ∧
              (DatabaseHealthChecker.check_health env hc).1.is_healthy = false ∧
              (DatabaseHealthChecker.check_health env hc).1.last_failure_time =
                some env.now ∧
              (DatabaseHealthChecker.check_health env hc).1.last_failure_reason =
                some "Health check query failed"))) ∧
    (run_health_checks
          [true, false, true, false, true, false, true, false, true, false]
          (DatabaseHealthChecker.mk0 (some hOpen0))).success_count = 5 ∧
    (run_health_checks
          [true, false, true, false, true, false, true, false, true, false]
          (DatabaseHealthChecker.mk0 (some hOpen0))).failure_count = 5 ∧
    (run_health_checks
          [true, false, true, false, true, false, true, false, true, false]
          (DatabaseHealthChecker.mk0 (some hOpen0))).check_count = 10 ∧
    (run_health_checks
          [true, false, true, false, true, false, true, false, true, false]
          (DatabaseHealthChecker.mk0 (some hOpen0))).last_failure_reason =
      some "Health check query failed" := by
  refine ⟨fun env hc h hsome => ?_, by decide, by decide, by decide, by decide⟩
  unfold DatabaseHealthChecker.check_health
  rw [hsome]
  by_cases hb : (MySQLHandler.health_check env h).2.1 = true
  · simp [hb]
  · simp [hb]

/-- Witness for C4's quantified part: one successful check on a fresh
connected monitor. -/
theorem C4_check_health_counts_witness :
    (DatabaseHealthChecker.check_health (envOf true)
        (DatabaseHealthChecker.mk0 (some hOpen0))).1.check_count =
      (DatabaseHealthChecker.mk0 (some hOpen0)).check_count + 1 :=
  (C4_check_health_counts.1 (envOf true)
    (DatabaseHealthChecker.mk0 (some hOpen0)) hOpen0 rfl).1

/-- `check_health` preserves the counter invariant. -/
theorem check_health_preserves_counters (env : NetEnv)
    (hc : DatabaseHealthChecker) (hcc : counters_consistent hc) :
    counters_consistent (DatabaseHealthChecker.check_health env hc).1 := by
  unfold counters_consistent at hcc ⊢
  unfold DatabaseHealthChecker.check_health
  cases e : hc.mysql_handler with
  | none => simpa using hcc
  | some h =>
    by_cases hb : (MySQLHandler.health_check env h).2.1 = true
    · simp [hb]
      omega
    · simp [hb]
      omega

/-- Claim C9: in every reachable monitor state, `check_count` equals
`success_count + failure_count`: the invariant holds initially (all three
counters are zero), is preserved by `check_health`, by `force_reconnect`
and by each monitoring-loop iteration, and is restored by
`reset_statistics`, which zeroes all three counters. -/
theorem C9_counter_invariant :
    (∀ h : Option MySQLHandler,
      counters_consistent (DatabaseHealthChecker.mk0 h) ∧
        (DatabaseHealthChecker.mk0 h).check_count = 0 ∧
        (DatabaseHealthChecker.mk0 h).success_count = 0 ∧
        (DatabaseHealthChecker.mk0 h).failure_count = 0) ∧
    (∀ (env : NetEnv) (hc : DatabaseHealthChecker), counters_consistent hc →
      counters_consistent (DatabaseHealthChecker.check_health env hc).1) ∧
    (∀ (env : NetEnv) (hc : DatabaseHealthChecker), counters_consistent hc →
      counters_consistent (DatabaseHealthChecker.force_reconnect env hc).1) ∧
    (∀ (env : NetEnv) (hc : DatabaseHealthChecker), counters_consistent hc →
      counters_consistent (DatabaseHealthChecker.monitoring_iteration env hc)) ∧
    (∀ hc : DatabaseHealthChecker,
      counters_consistent (DatabaseHealthChecker.reset_statistics hc) ∧
        (DatabaseHealthChecker.reset_statistics hc).check_count = 0 ∧
        (DatabaseHealthChecker.reset_statistics hc).success_count = 0 ∧
        (DatabaseHealthChecker.reset_statistics hc).failure_count = 0) := by
  refine ⟨fun h => ⟨rfl, rfl, rfl, rfl⟩,
    check_health_preserves_counters, fun env hc hcc => ?_, fun env hc hcc => ?_,
    fun hc => ⟨rfl, rfl, rfl, rfl⟩⟩
  · unfold DatabaseHealthChecker.force_reconnect
    cases e : hc.mysql_handler with
    | none => simpa using hcc
    | some h =>
      by_cases hb :
          (MySQLHandler.connect env (MySQLHandler.disconnect h).1).2.1 = true
      · simp only [hb, if_true]
        exact check_health_preserves_counters env _ hcc
      · simp only [hb, if_false]
        exact hcc
  · unfold DatabaseHealthChecker.monitoring_iteration
    have h1 := check_health_preserves_counters env hc hcc
    by_cases hb :
        (DatabaseHealthChecker.check_health env hc).1.is_healthy = true
    · simp only [hb]
      exact h1
    · simp only [hb]
      cases e : (DatabaseHealthChecker.check_health env hc).1.mysql_handler with
      | none => simpa using h1
      | some h => exact h1

/-- Witness for C9's preservation clauses: one failing check, one failing
forced reconnect, one loop iteration and one reset, all from the fresh
never-connected monitor. -/
theorem C9_counter_invariant_witness :
    counters_consistent (DatabaseHealthChecker.check_health envDown hcNoConn).1 ∧
    counters_consistent
      (DatabaseHealthChecker.force_reconnect envDown hcNoConn).1 ∧
    counters_consistent
      (DatabaseHealthChecker.monitoring_iteration envDown hcNoConn) ∧
    counters_consistent (DatabaseHealthChecker.reset_statistics hcNoConn) :=
  ⟨C9_counter_invariant.2.1 envDown hcNoConn rfl,
   C9_counter_invariant.2.2.1 envDown hcNoConn rfl,
   C9_counter_invariant.2.2.2.1 envDown hcNoConn rfl,
   (C9_counter_invariant.2.2.2.2 hcNoConn).1⟩

/-- On the connected, freshly verified handle `hOpen0`, a health check in
the environment `envOf b` reports exactly the probe outcome `b` and leaves
the handle unchanged. -/
theorem health_check_envOf_hOpen0 (b : Bool) :
    MySQLHandler.health_check (envOf b) hOpen0 = (hOpen0, b, [NetOp.queryOp]) := by
  cases b <;> rfl

/-- A `check_health` step in `envOf b` on a checker holding `hOpen0` keeps
the handler, adds one to `check_count`, and adds one to `success_count`
exactly when the probe succeeded. -/
theorem check_health_envOf_step (b : Bool) (hc : DatabaseHealthChecker)
    (hh : hc.mysql_handler = some hOpen0) :
    (DatabaseHealthChecker.check_health (envOf b) hc).1.mysql_handler =
        some hOpen0 ∧
      (DatabaseHealthChecker.check_health (envOf b) hc).1.check_count =
        hc.check_count + 1 ∧
      (DatabaseHealthChecker.check_health (envOf b) hc).1.success_count =
        hc.success_count + (if b then 1 else 0) := by
  cases b <;>
    simp [DatabaseHealthChecker.check_health, hh, health_check_envOf_hOpen0]

/-- Running a history of probe outcomes from any checker holding `hOpen0`
adds the history's length to `check_count` and its number of successes to
`success_count`. -/
theorem run_health_checks_counts (os : List Bool) :
    ∀ hc : DatabaseHealthChecker, hc.mysql_handler = some hOpen0 →
      (run_health_checks os hc).check_count = hc.check_count + os.length ∧
        (run_health_checks os hc).success_count =
          hc.success_count + os.count true := by
  induction os with
  | nil => intro hc hh; simp [run_health_checks]
  | cons b os ih =>
    intro hc hh
    have hstep := check_health_envOf_step b hc hh
    have hrest := ih (DatabaseHealthChecker.check_health (envOf b) hc).1 hstep.1
    have hr : run_health_checks (b :: os) hc =
        run_health_checks os (DatabaseHealthChecker.check_health (envOf b) hc).1 :=
      rfl
    rw [hr]
    constructor
    · rw [hrest.1, hstep.2.1]
      simp [List.length_cons]
      omega
    · rw [hrest.2, hstep.2.2]
      cases b <;> simp [List.count_cons]
      omega

/-- Claim C5: for every history of check outcomes, the reported
`success_rate` equals `success_count / check_count * 100` when
`check_count > 0` — here with the counters expressed through the history:
the number of successes over the number of checks — and equals `0` when
`check_count = 0` (the empty history). -/
theorem C5_success_rate (os : List Bool) :
    (DatabaseHealthChecker.get_health_status
        (run_health_checks os (DatabaseHealthChecker.mk0 (some hOpen0)))).success_rate =
      if 0 < os.length then ((os.count true : Rat) / (os.length : Rat)) * 100
      else 0 := by
  have h := run_health_checks_counts os (DatabaseHealthChecker.mk0 (some hOpen0)) rfl
  unfold DatabaseHealthChecker.get_health_status
  simp only [h.1, h.2]
  simp [DatabaseHealthChecker.mk0]

/-- Claim C1 fails on the code: with both sinks enabled and both sinks
accepting the record — the database write reports `True`, the CSV append
succeeds — `save_trade` still returns no combined success indicator.
Python's `save_trade` has no `return` statement, so every call yields
`None`, not the claimed `True`. -/
theorem C1_counterexample :
    (DataHandler.db_save (envOf true)
        (DataHandler.csv_save true
          { mysql_handler := some hOpen0, csv_file := none } trec0)
        trec0).2 = true ∧
      (DataHandler.save_trade { save_to_csv := true, save_to_db := true }
          (envOf true) true { mysql_handler := some hOpen0, csv_file := none }
          trec0).2 ≠ some true := by
  constructor
  · rfl
  · intro hcontra
    exact Option.noConfusion hcontra

/-- Claim C1 amended: `save_trade` runs the CSV sink when enabled and the
database sink when enabled, but returns no success indicator at all — it
always returns `None`, whatever the enabled sinks reported (the database
outcome is computed and discarded, and `_save_to_csv` swallows its own
failures). -/
theorem C1_save_trade_returns_none (cfg : DataConfig) (env : NetEnv)
    (csvOk : Bool) (dh : DataHandler) (rec : TradeRecord) :
    (DataHandler.save_trade cfg env csvOk dh rec).2 = none := rfl

/-- `_ensure_connection` never executes a statement: its trace holds only
ping and connect operations. -/
theorem ensure_connection_no_exec (env : NetEnv) (h : MySQLHandler) :
    NetOp.execOp ∉ (MySQLHandler.ensure_connection env h).2.2 := by
  unfold MySQLHandler.ensure_connection MySQLHandler.connect
  split_ifs <;> simp

/-- Claim C2 fails on the code: on a handle that was never connected, with
the server refusing connections, `execute_batch_insert` called with an
empty parameter list first runs `_ensure_connection`, which performs a
connect attempt — a network call — and fails, so the method returns
`False` instead of the claimed unconditional trivial success with zero
network calls. -/
theorem C2_counterexample :
    (MySQLHandler.execute_batch_insert envDown MySQLHandler.mk0
        ([] : List Unit)).2.1 = false ∧
      (MySQLHandler.execute_batch_insert envDown MySQLHandler.mk0
        ([] : List Unit)).2.2 = [NetOp.connectOp] := by
  constructor <;> rfl

/-- Claim C2 amended: `execute_batch_insert` with an empty parameter list
returns the outcome of the connection-ensuring step — which may itself
perform connect or ping network calls and can fail — and never executes a
statement; in particular, on a handle holding an open connection inside
its ping interval it returns `True` having performed zero network calls
and changed nothing. -/
theorem C2_execute_batch_empty (env : NetEnv) (h : MySQLHandler) :
    ((MySQLHandler.execute_batch_insert env h ([] : List Unit)).2.1 =
        (MySQLHandler.ensure_connection env h).2.1) ∧
      NetOp.execOp ∉
        (MySQLHandler.execute_batch_insert env h ([] : List Unit)).2.2 ∧
      (h.connection = some true → env.now - h.last_ping_time ≤ ping_interval →
        MySQLHandler.execute_batch_insert env h ([] : List Unit) =
          (h, true, [])) := by
  refine ⟨?_, ?_, ?_⟩
  · unfold MySQLHandler.execute_batch_insert
    by_cases hb : (MySQLHandler.ensure_connection env h).2.1 = true
    · simp [hb]
    · simp [hb]
  · unfold MySQLHandler.execute_batch_insert
    by_cases hb : (MySQLHandler.ensure_connection env h).2.1 = true
    · simpa [hb] using ensure_connection_no_exec env h
    · simpa [hb] using ensure_connection_no_exec env h
  · intro hopen hle
    have hens : MySQLHandler.ensure_connection env h = (h, true, []) := by
      unfold MySQLHandler.ensure_connection
      have hgt : ¬ env.now - h.last_ping_time > ping_interval := by omega
      simp [hgt, MySQLHandler.isOpen, hopen]
    unfold MySQLHandler.execute_batch_insert
    rw [hens]
    rfl

/-- Witness for C2's amended clause at a concrete open in-interval handle. -/
theorem C2_execute_batch_empty_witness :
    MySQLHandler.execute_batch_insert (envOf true) hOpen0 ([] : List Unit) =
      (hOpen0, true, []) :=
  (C2_execute_batch_empty (envOf true) hOpen0).2.2 rfl (by decide)

/-- Inside the ping interval, `_ensure_connection` issues no liveness
probe at all. -/
theorem ensure_connection_within_no_ping (env : NetEnv) (h : MySQLHandler)
    (hle : env.now - h.last_ping_time ≤ ping_interval) :
    ((MySQLHandler.ensure_connection env h).2.2).count NetOp.pingOp = 0 := by
  have hgt : ¬ env.now - h.last_ping_time > ping_interval := by omega
  unfold MySQLHandler.ensure_connection MySQLHandler.connect
  simp only [hgt, if_false]
  split_ifs <;> simp

/-- Claim C6 fails on the code: on a handle whose connection object is
closed, `_ensure_connection` called after the ping interval has elapsed
since the last verified-alive time issues no liveness probe at all — it
calls `connect()` directly — rather than the claimed exactly one probe. -/
theorem C6_counterexample :
    ¬ (((MySQLHandler.ensure_connection envLate hStale).2.2).count
        NetOp.pingOp = 1) := by decide

/-- Claim C6 amended: two `_ensure_connection` calls within the ping
interval issue at most one liveness probe (in fact none); a call after the
interval has elapsed since the last verified-alive time issues exactly one
probe when the handle holds an open connection, and none — it calls
`connect()` directly — when the connection is missing or closed. -/
theorem C6_ensure_connection_probes (env1 env2 env : NetEnv)
    (h : MySQLHandler) :
    (env1.now - h.last_ping_time ≤ ping_interval →
      env2.now - (MySQLHandler.ensure_connection env1 h).1.last_ping_time ≤
          ping_interval →
      ((MySQLHandler.ensure_connection env1 h).2.2 ++
          (MySQLHandler.ensure_connection env2
            (MySQLHandler.ensure_connection env1 h).1).2.2).count
          NetOp.pingOp ≤ 1) ∧
    (env.now - h.last_ping_time > ping_interval → h.isOpen = true →
      ((MySQLHandler.ensure_connection env h).2.2).count NetOp.pingOp = 1) ∧
    (env.now - h.last_ping_time > ping_interval → h.isOpen = false →
      ((MySQLHandler.ensure_connection env h).2.2).count NetOp.pingOp = 0) := by
  refine ⟨fun h1 h2 => ?_, fun hgt hopen => ?_, fun hgt hclosed => ?_⟩
  · rw [List.count_append, ensure_connection_within_no_ping env1 h h1,
      ensure_connection_within_no_ping env2 _ h2]
    omega
  · unfold MySQLHandler.ensure_connection
    simp only [hgt, if_true, hopen]
    by_cases hp : env.pingOk = true
    · simp [hp]
    · simp only [hp, if_false]
      unfold MySQLHandler.connect
      split_ifs <;> simp [MySQLHandler.isOpen]
  · have hne : ¬ h.isOpen = true := by simp [hclosed]
    unfold MySQLHandler.ensure_connection
    rw [if_pos hgt, if_neg hne]
    unfold MySQLHandler.connect
    rw [if_neg hne]
    by_cases hc2 : env.connectOk = true
    · simp [hc2]
    · simp [hc2]

/-- Witness for C6's amended clauses: two in-interval calls on the fresh
open handle, one elapsed call on an open handle, one elapsed call on the
stale closed handle. -/
theorem C6_ensure_connection_probes_witness :
    ((MySQLHandler.ensure_connection (envOf true) hOpen0).2.2 ++
        (MySQLHandler.ensure_connection (envOf true)
          (MySQLHandler.ensure_connection (envOf true) hOpen0).1).2.2).count
        NetOp.pingOp ≤ 1 ∧
    ((MySQLHandler.ensure_connection envLate
        { connection := some true, last_ping_time := 100 }).2.2).count
        NetOp.pingOp = 1 ∧
    ((MySQLHandler.ensure_connection envLate hStale).2.2).count
        NetOp.pingOp = 0 :=
  ⟨(C6_ensure_connection_probes (envOf true) (envOf true) (envOf true)
      hOpen0).1 (by decide) (by decide),
   (C6_ensure_connection_probes envLate envLate envLate
      { connection := some true, last_ping_time := 100 }).2.1 (by decide) rfl,
   (C6_ensure_connection_probes envLate envLate envLate hStale).2.2
      (by decide) rfl⟩

/-- Claim C3 fails on the code: when the reconnect attempt itself fails
(server unreachable), `force_reconnect` on a monitor whose handle has no
prior connection skips the health check entirely, so `check_count` does
not increase by 1. -/
theorem C3_counterexample :
    ¬ ((DatabaseHealthChecker.force_reconnect envDown hcNoConn).1.check_count =
        hcNoConn.check_count + 1) := by decide

/-- Claim C3 amended: `force_reconnect` on a monitor whose handle has no
prior connection performs one disconnect (a no-op) and one connect
attempt; when the connect succeeds it then runs exactly one health check —
the trace is one connect followed by one probe query — and `check_count`
increases by exactly 1; when the connect fails it returns `False`, runs no
health check, and `check_count` is unchanged. -/
theorem C3_force_reconnect_amended (env : NetEnv)
    (hc : DatabaseHealthChecker) (h : MySQLHandler)
    (hh : hc.mysql_handler = some h) (hconn : h.connection = none) :
    (env.connectOk = true →
      (DatabaseHealthChecker.force_reconnect env hc).1.check_count =
          hc.check_count + 1 ∧
        (DatabaseHealthChecker.force_reconnect env hc).2.1 = true ∧
        (DatabaseHealthChecker.force_reconnect env hc).2.2 =
          [NetOp.connectOp, NetOp.queryOp]) ∧
    (env.connectOk = false →
      (DatabaseHealthChecker.force_reconnect env hc).1.check_count =
          hc.check_count ∧
        (DatabaseHealthChecker.force_reconnect env hc).2.1 = false ∧
        (DatabaseHealthChecker.force_reconnect env hc).2.2 =
          [NetOp.connectOp]) := by
  have hopen : h.isOpen = false := isOpen_eq_false h (by simp [hconn])
  have hdis : MySQLHandler.disconnect h = (h, []) := by
    simp [MySQLHandler.disconnect, hconn]
  constructor
  · intro hok
    have hcon : MySQLHandler.connect env h =
        ({ connection := some true, last_ping_time := env.now }, true,
          [NetOp.connectOp]) := by
      simp [MySQLHandler.connect, hopen, hok]
    have hhc : MySQLHandler.health_check env
        { connection := some true, last_ping_time := env.now } =
        ({ connection := some true, last_ping_time := env.now }, env.queryOk,
          [NetOp.queryOp]) := by
      cases hq : env.queryOk <;>
        simp [MySQLHandler.health_check, MySQLHandler.execute_query_select1,
          MySQLHandler.ensure_connection, MySQLHandler.isOpen, ping_interval,
          hq]
    cases hq : env.queryOk <;>
      simp [DatabaseHealthChecker.force_reconnect, hh, hdis, hcon,
        DatabaseHealthChecker.check_health, hhc, hq]
  · intro hko
    have hcon : MySQLHandler.connect env h =
        ({ h with connection := none }, false, [NetOp.connectOp]) := by
      simp [MySQLHandler.connect, hopen, hko]
    simp [DatabaseHealthChecker.force_reconnect, hh, hdis, hcon]

/-- Witness for C3's amended clauses: the never-connected monitor against
a reachable and an unreachable server. -/
theorem C3_force_reconnect_amended_witness :
    (DatabaseHealthChecker.force_reconnect (envOf true) hcNoConn).1.check_count =
        hcNoConn.check_count + 1 ∧
      (DatabaseHealthChecker.force_reconnect envDown hcNoConn).1.check_count =
        hcNoConn.check_count :=
  ⟨((C3_force_reconnect_amended (envOf true) hcNoConn MySQLHandler.mk0
      rfl rfl).1 rfl).1,
   ((C3_force_reconnect_amended envDown hcNoConn MySQLHandler.mk0
      rfl rfl).2 rfl).1⟩
